import Mathlib

/-!
Verification of the eywa-go client core: the JSON-RPC transport, correlator
and dispatcher (`SendRequest`, `OpenPipe`, `handleData`, `handleRequest`,
`handleResponse`) and the file transfer orchestrator (`Upload`,
`UploadStream`, `UploadContent`, `Download`, `DownloadStream`, `DeleteFile`,
`DeleteFolder`).  Go values of dynamic type `interface\x7b\x7d` are modelled by
`GoVal`; Go maps `map[string]interface\x7b\x7d` by association lists with
Go map semantics (`mapLookup`, `mapInsert`, `mapDelete`); external
collaborators (the host process replies, the HTTP bulk channel, the
filesystem, the MIME table, the random source) are modelled as explicit
inputs.  Side effects (channel sends, handler invocations, log lines,
network interactions) are collected in explicit event lists.
-/

/-- A dynamic Go value, as stored in a `map[string]interface\x7b\x7d`.
JSON null and the nil interface are both `null` (they are the same nil
interface value after `encoding/json` decoding).  Go keeps `int` and
`int64` as distinct dynamic types, which matters for the type switches in
`UploadStream`; both are carried as mathematical integers.  `fn` stands
for a `ProgressFn` callback value, identified by an opaque tag. -/
inductive GoVal where
  | str (s : String)
  | int64 (n : Int)
  | int (n : Int)
  | bool (b : Bool)
  | null
  | obj (fields : List (String × GoVal))
  | arr (elems : List GoVal)
  | fn (tag : Nat)

/-- A Go `map[string]interface\x7b\x7d` with string keys: association list,
unique keys maintained by `mapInsert`. -/
abbrev GoObj := List (String × GoVal)

/-- Go map read `m[k]` in its comma-ok form: `some v` when the key is
present (a JSON null key is present, with value `null`). -/
def mapLookup (m : GoObj) (k : String) : Option GoVal :=
  match m with
  | [] => none
  | (k2, v) :: rest => if k2 = k then some v else mapLookup rest k

/-- Go map read `m[k]` in its plain form: the nil interface (here `null`)
when the key is absent. -/
def goIndex (m : GoObj) (k : String) : GoVal :=
  match mapLookup m k with
  | some v => v
  | none => GoVal.null

/-- Go map deletion `delete(m, k)`. -/
def mapDelete (m : GoObj) (k : String) : GoObj :=
  match m with
  | [] => []
  | (k2, v) :: rest => if k2 = k then mapDelete rest k else (k2, v) :: mapDelete rest k

/-- Go map write `m[k] = v`: replaces any existing binding of `k`. -/
def mapInsert (m : GoObj) (k : String) (v : GoVal) : GoObj :=
  (k, v) :: mapDelete m k

theorem mapLookup_mapDelete_self (m : GoObj) (k : String) :
    mapLookup (mapDelete m k) k = none := by
  induction m with
  | nil => rfl
  | cons p rest ih =>
    obtain ⟨a, b⟩ := p
    by_cases h : a = k
    · simpa [mapDelete, h] using ih
    · simpa [mapDelete, mapLookup, h] using ih

theorem mapLookup_mapDelete_ne (m : GoObj) (k k2 : String) (h : k2 ≠ k) :
    mapLookup (mapDelete m k) k2 = mapLookup m k2 := by
  induction m with
  | nil => rfl
  | cons p rest ih =>
    obtain ⟨a, b⟩ := p
    by_cases hp : a = k
    · have hk2 : ¬ k = k2 := fun hc => h hc.symm
      simp only [mapDelete, mapLookup, hp, if_true, hk2, if_false]
      exact ih
    · simp only [mapDelete, mapLookup, hp, if_false]
      by_cases hq : a = k2
      · simp [mapLookup, hq]
      · simp only [mapLookup, hq, if_false]
        exact ih

theorem mapLookup_mapInsert_self (m : GoObj) (k : String) (v : GoVal) :
    mapLookup (mapInsert m k v) k = some v := by
  simp [mapInsert, mapLookup]

theorem mapLookup_mapInsert_ne (m : GoObj) (k k2 : String) (v : GoVal) (h : k2 ≠ k) :
    mapLookup (mapInsert m k v) k2 = mapLookup m k2 := by
  have : k ≠ k2 := fun hc => h hc.symm
  simp [mapInsert, mapLookup, this]
  exact mapLookup_mapDelete_ne m k k2 h

/-- Rendering used by `fmt.Sprintf` with verb `%v` for the scalar dynamic
types that appear in correlation ids.  Composite values and callbacks are
rendered by Go with a structural syntax the claims never inspect; they are
mapped to fixed placeholders here. -/
def formatV : GoVal → String
  | GoVal.str s => s
  | GoVal.int64 n => n.repr
  | GoVal.int n => n.repr
  | GoVal.bool b => if b then "true" else "false"
  | GoVal.null => "<nil>"
  | GoVal.obj _ => "<map>"
  | GoVal.arr _ => "<slice>"
  | GoVal.fn _ => "<func>"

/-- The `Request` struct of the source: jsonrpc tag, method, params
(`interface\x7b\x7d`, nil when absent) and the id rendered as a string
(empty string is the Go zero value when the id is absent). -/
structure Request where
  jsonrpc : String
  method : String
  params : GoVal
  id : String

/-- The `Response` struct of the source: result and error are dynamic
values, `null` standing for the nil interface. -/
structure Response where
  jsonrpc : String
  result : GoVal
  error : GoVal
  id : String

/-- Registered channels and handlers: the globals `rpcCallbacks` (id to
response channel, channels named by allocation number) and `handlers`
(method to handler callback, callbacks named by an opaque tag). -/
structure Client where
  rpcCallbacks : List (String × Nat)
  handlers : List (String × Nat)

/-- Lookup in a `List (String × Nat)` registry, Go map semantics. -/
def regLookup (m : List (String × Nat)) (k : String) : Option Nat :=
  match m with
  | [] => none
  | (k2, v) :: rest => if k2 = k then some v else regLookup rest k

/-- Go `delete` on a registry. -/
def regDelete (m : List (String × Nat)) (k : String) : List (String × Nat) :=
  match m with
  | [] => []
  | (k2, v) :: rest => if k2 = k then regDelete rest k else (k2, v) :: regDelete rest k

/-- Go map write on a registry. -/
def regInsert (m : List (String × Nat)) (k : String) (v : Nat) : List (String × Nat) :=
  (k, v) :: regDelete m k

theorem regLookup_regDelete_self (m : List (String × Nat)) (k : String) :
    regLookup (regDelete m k) k = none := by
  induction m with
  | nil => rfl
  | cons p rest ih =>
    obtain ⟨a, b⟩ := p
    by_cases h : a = k
    · simpa [regDelete, h] using ih
    · simpa [regDelete, regLookup, h] using ih

theorem regLookup_regDelete_ne (m : List (String × Nat)) (k k2 : String) (h : k2 ≠ k) :
    regLookup (regDelete m k) k2 = regLookup m k2 := by
  induction m with
  | nil => rfl
  | cons p rest ih =>
    obtain ⟨a, b⟩ := p
    by_cases hp : a = k
    · have hk2 : ¬ k = k2 := fun hc => h hc.symm
      simp only [regDelete, regLookup, hp, if_true, hk2, if_false]
      exact ih
    · simp only [regDelete, regLookup, hp, if_false]
      by_cases hq : a = k2
      · simp [regLookup, hq]
      · simp only [regLookup, hq, if_false]
        exact ih

theorem regLookup_regInsert_self (m : List (String × Nat)) (k : String) (v : Nat) :
    regLookup (regInsert m k v) k = some v := by
  simp [regInsert, regLookup]

theorem regLookup_regInsert_ne (m : List (String × Nat)) (k k2 : String) (v : Nat) (h : k2 ≠ k) :
    regLookup (regInsert m k v) k2 = regLookup m k2 := by
  have : k ≠ k2 := fun hc => h hc.symm
  simp [regInsert, regLookup, this]
  exact regLookup_regDelete_ne m k k2 h

/-- Observable side effects of the read loop: a value sent on a response
channel, a channel closed, a registered handler invoked, a line logged. -/
inductive Eff where
  | send (ch : Nat) (resp : Response)
  | closeCh (ch : Nat)
  | invoke (handlerTag : Nat) (req : Request)
  | logMsg (s : String)

/-- The `Response` value built by `handleResponse` from a decoded inbound
unit: result and error are plain map reads (nil when absent), the id is
rendered with `%v`. -/
def responseOf (data : GoObj) : Response :=
  { jsonrpc := "2.0"
    result := goIndex data "result"
    error := goIndex data "error"
    id := formatV (goIndex data "id") }

/-- Embedding of `handleResponse`: formats the inbound id, looks it up in
`rpcCallbacks`; on a hit removes the entry, sends the response on the
registered channel and closes it; on a miss logs and leaves all state
unchanged. -/
def handleResponse (c : Client) (data : GoObj) : Client × List Eff :=
  let id := formatV (goIndex data "id")
  let resp := responseOf data
  match regLookup c.rpcCallbacks id with
  | some ch =>
    ({ c with rpcCallbacks := regDelete c.rpcCallbacks id },
     [Eff.send ch resp, Eff.closeCh ch])
  | none =>
    (c, [Eff.logMsg ("RPC callback not registered for request with id = " ++ id)])

/-- The `Request` value built by `handleRequest` from a decoded inbound
unit. -/
def requestOf (data : GoObj) : Request :=
  { jsonrpc := "2.0"
    method := match mapLookup data "method" with
              | some (GoVal.str s) => s
              | _ => ""
    params := goIndex data "params"
    id := match mapLookup data "id" with
          | some v => formatV v
          | none => "" }

/-- Embedding of `handleRequest`: builds the `Request`, looks the method up
in `handlers`; invokes the handler when registered, otherwise logs with no
further action. -/
def handleRequest (c : Client) (data : GoObj) : Client × List Eff :=
  let req := requestOf data
  match regLookup c.handlers req.method with
  | some h => (c, [Eff.invoke h req])
  | none => (c, [Eff.logMsg ("Method " ++ req.method ++ " has no registered handler")])

/-- Embedding of `handleData`: a unit whose `method` entry is a string goes
to `handleRequest`; otherwise a unit with an `id` entry (of any type) goes
to `handleResponse`; otherwise it is logged as invalid JSON-RPC. -/
def handleData (c : Client) (data : GoObj) : Client × List Eff :=
  match mapLookup data "method" with
  | some (GoVal.str _) => handleRequest c data
  | _ =>
    match mapLookup data "id" with
    | some _ => handleResponse c data
    | none => (c, [Eff.logMsg "Received invalid JSON-RPC"])

/-- One iteration of the `OpenPipe` scanner loop.  A line is represented by
the outcome of `json.Unmarshal`: `none` for a line that fails to decode
(the loop logs and continues), `some data` for a decoded object. -/
def processLine (c : Client) (line : Option GoObj) : Client × List Eff :=
  match line with
  | none => (c, [Eff.logMsg "Received invalid JSON"])
  | some data => handleData c data

/-- Embedding of the `OpenPipe` read loop over a finite inbound prefix:
processes every line in order, threading the client state and
concatenating the per-line effects.  No line outcome stops the loop. -/
def runPipe (c : Client) (lines : List (Option GoObj)) : Client × List Eff :=
  match lines with
  | [] => (c, [])
  | l :: ls =>
    ((runPipe (processLine c l).1 ls).1,
     (processLine c l).2 ++ (runPipe (processLine c l).1 ls).2)

theorem runPipe_append (c : Client) (xs ys : List (Option GoObj)) :
    runPipe c (xs ++ ys)
      = ((runPipe (runPipe c xs).1 ys).1,
         (runPipe c xs).2 ++ (runPipe (runPipe c xs).1 ys).2) := by
  induction xs generalizing c with
  | nil => simp [runPipe]
  | cons l ls ih =>
    simp only [List.cons_append, runPipe, List.append_eq]
    rw [ih (processLine c l).1]
    simp [List.append_assoc]

/-- C1: for every inbound reply processed by `handleResponse`, a matching
`rpcCallbacks` entry is removed exactly (that entry is gone, every other
entry and the handler table are untouched) and the waiter channel receives
the reply exactly once (the effect list is exactly one send followed by
the channel close); with no matching entry the reply is logged and
discarded, with the whole state unchanged.  `handleResponse` is a total
function, so the read loop cannot crash on any reply. -/
theorem handleResponse_correlation (c : Client) (data : GoObj) :
    (∀ ch, regLookup c.rpcCallbacks (formatV (goIndex data "id")) = some ch →
      (handleResponse c data).2 = [Eff.send ch (responseOf data), Eff.closeCh ch] ∧
      regLookup (handleResponse c data).1.rpcCallbacks (formatV (goIndex data "id")) = none ∧
      (∀ k, k ≠ formatV (goIndex data "id") →
        regLookup (handleResponse c data).1.rpcCallbacks k = regLookup c.rpcCallbacks k) ∧
      (handleResponse c data).1.handlers = c.handlers) ∧
    (regLookup c.rpcCallbacks (formatV (goIndex data "id")) = none →
      (handleResponse c data).1 = c ∧
      (handleResponse c data).2
        = [Eff.logMsg ("RPC callback not registered for request with id = "
            ++ formatV (goIndex data "id"))]) := by
  constructor
  · intro ch hch
    have hres : handleResponse c data
        = ({ c with rpcCallbacks := regDelete c.rpcCallbacks (formatV (goIndex data "id")) },
           [Eff.send ch (responseOf data), Eff.closeCh ch]) := by
      simp [handleResponse, hch]
    rw [hres]
    exact ⟨rfl, regLookup_regDelete_self _ _, fun k hk => regLookup_regDelete_ne _ _ k hk, rfl⟩
  · intro hnone
    have hres : handleResponse c data
        = (c, [Eff.logMsg ("RPC callback not registered for request with id = "
                ++ formatV (goIndex data "id"))]) := by
      simp [handleResponse, hnone]
    rw [hres]
    exact ⟨rfl, rfl⟩

/-- C1 witness: a concrete registry with two pending calls and a reply for
id 7: the channel for 7 is fulfilled once and closed, entry 7 is removed,
entry 8 survives; a second concrete reply with unknown id 9 leaves the
registry untouched and only logs. -/
theorem handleResponse_correlation_witness :
    (handleResponse (Client.mk [("7", 0), ("8", 1)] []) [("id", GoVal.str "7")]).2
      = [Eff.send 0 (responseOf [("id", GoVal.str "7")]), Eff.closeCh 0] ∧
    regLookup (handleResponse (Client.mk [("7", 0), ("8", 1)] []) [("id", GoVal.str "7")]).1.rpcCallbacks "7" = none ∧
    regLookup (handleResponse (Client.mk [("7", 0), ("8", 1)] []) [("id", GoVal.str "7")]).1.rpcCallbacks "8" = some 1 ∧
    (handleResponse (Client.mk [("7", 0), ("8", 1)] []) [("id", GoVal.str "9")]).1
      = Client.mk [("7", 0), ("8", 1)] [] := by
  have h1 := (handleResponse_correlation (Client.mk [("7", 0), ("8", 1)] [])
      [("id", GoVal.str "7")]).1 0 (by decide)
  have h2 := (handleResponse_correlation (Client.mk [("7", 0), ("8", 1)] [])
      [("id", GoVal.str "9")]).2 (by decide)
  refine ⟨h1.1, ?_, ?_, h2.1⟩
  · simpa using h1.2.1
  · have := h1.2.2.1 "8" (by decide)
    simpa using this

/-- C7: a line that fails to decode only contributes one log line: the read
loop continues, the final state is the one the remaining lines produce, and
the processing of every line before and after the malformed one is exactly
what it would be with the malformed line absent.  The loop also processes
any concatenation of line lists to completion, so a decode failure never
terminates it. -/
theorem runPipe_malformed_line_harmless (c : Client) (xs ys : List (Option GoObj)) :
    runPipe c (xs ++ none :: ys)
      = ((runPipe (runPipe c xs).1 ys).1,
         (runPipe c xs).2 ++ Eff.logMsg "Received invalid JSON"
           :: (runPipe (runPipe c xs).1 ys).2) ∧
    (runPipe c (xs ++ none :: ys)).1 = (runPipe c (xs ++ ys)).1 := by
  have hmain : runPipe c (xs ++ none :: ys)
      = ((runPipe (runPipe c xs).1 ys).1,
         (runPipe c xs).2 ++ Eff.logMsg "Received invalid JSON"
           :: (runPipe (runPipe c xs).1 ys).2) := by
    rw [runPipe_append c xs (none :: ys)]
    simp [runPipe, processLine]
  refine ⟨hmain, ?_⟩
  rw [hmain, runPipe_append c xs ys]

/-- C8 counterexample: the decoded unit with a `method` field holding the
number 42 and an `id` field "x" is NOT forwarded to the Dispatcher: the
type switch in `handleData` only accepts a string `method`, so the unit is
treated as a Reply, the pending call registered under "x" is consumed and
its channel fulfilled.  This falsifies the claim that every unit with a
`method` field goes to the Dispatcher (handler invoked or logged with no
further action). -/
theorem handleData_nonstring_method_cex :
    handleData (Client.mk [("x", 7)] []) [("method", GoVal.int 42), ("id", GoVal.str "x")]
      = (Client.mk [] [],
         [Eff.send 7 (responseOf [("method", GoVal.int 42), ("id", GoVal.str "x")]),
          Eff.closeCh 7]) := by
  rfl

/-- C8 amended: every decoded inbound unit is classified and routed as
follows: a unit whose `method` entry holds a string (with or without `id`)
is forwarded to the Dispatcher (`handleRequest`: handler invoked if
registered, else logged with no further action and no state change); a
unit with no string-valued `method` but with an `id` entry is forwarded to
the Correlator (`handleResponse`) as a Reply; a unit with neither is
logged and dropped with no state change. -/
theorem handleData_routing (c : Client) (data : GoObj) :
    (∀ s, mapLookup data "method" = some (GoVal.str s) →
      handleData c data = handleRequest c data ∧
      ((∃ h, regLookup c.handlers s = some h ∧
             handleRequest c data = (c, [Eff.invoke h (requestOf data)])) ∨
       (regLookup c.handlers s = none ∧
        handleRequest c data
          = (c, [Eff.logMsg ("Method " ++ s ++ " has no registered handler")])))) ∧
    ((∀ s, mapLookup data "method" ≠ some (GoVal.str s)) →
      (∀ v, mapLookup data "id" = some v → handleData c data = handleResponse c data) ∧
      (mapLookup data "id" = none →
        handleData c data = (c, [Eff.logMsg "Received invalid JSON-RPC"]))) := by
  constructor
  · intro s hs
    have hmethod : (requestOf data).method = s := by
      simp [requestOf, hs]
    have hroute : handleData c data = handleRequest c data := by
      simp [handleData, hs]
    refine ⟨hroute, ?_⟩
    rcases hh : regLookup c.handlers s with _ | h
    · right
      refine ⟨rfl, ?_⟩
      simp [handleRequest, hmethod, hh]
    · left
      refine ⟨h, rfl, ?_⟩
      simp [handleRequest, hmethod, hh]
  · intro hnm
    constructor
    · intro v hv
      rcases hm : mapLookup data "method" with _ | w
      · simp [handleData, hm, hv]
      · cases w with
        | str s => exact absurd hm (hnm s)
        | int64 n => simp [handleData, hm, hv]
        | int n => simp [handleData, hm, hv]
        | bool b => simp [handleData, hm, hv]
        | null => simp [handleData, hm, hv]
        | obj fields => simp [handleData, hm, hv]
        | arr elems => simp [handleData, hm, hv]
        | fn tag => simp [handleData, hm, hv]
    · intro hid
      rcases hm : mapLookup data "method" with _ | w
      · simp [handleData, hm, hid]
      · cases w with
        | str s => exact absurd hm (hnm s)
        | int64 n => simp [handleData, hm, hid]
        | int n => simp [handleData, hm, hid]
        | bool b => simp [handleData, hm, hid]
        | null => simp [handleData, hm, hid]
        | obj fields => simp [handleData, hm, hid]
        | arr elems => simp [handleData, hm, hid]
        | fn tag => simp [handleData, hm, hid]

/-- C8 witness: the amended routing applied at concrete units: a Request
with string method "run" reaches its registered handler; a Notification
with unregistered string method "other" is only logged; a unit with a
null method and an id goes to the Correlator; an empty unit is logged as
invalid. -/
theorem handleData_routing_witness :
    handleData (Client.mk [] [("run", 3)]) [("method", GoVal.str "run"), ("id", GoVal.str "1")]
      = (Client.mk [] [("run", 3)],
         [Eff.invoke 3 (requestOf [("method", GoVal.str "run"), ("id", GoVal.str "1")])]) ∧
    handleData (Client.mk [] [("run", 3)]) [("method", GoVal.null), ("id", GoVal.str "1")]
      = handleResponse (Client.mk [] [("run", 3)]) [("method", GoVal.null), ("id", GoVal.str "1")] ∧
    handleData (Client.mk [] [("run", 3)]) []
      = (Client.mk [] [("run", 3)], [Eff.logMsg "Received invalid JSON-RPC"]) := by
  have h1 := (handleData_routing (Client.mk [] [("run", 3)])
      [("method", GoVal.str "run"), ("id", GoVal.str "1")]).1 "run" (by simp [mapLookup])
  have h2 := (handleData_routing (Client.mk [] [("run", 3)])
      [("method", GoVal.null), ("id", GoVal.str "1")]).2
      (by intro s; simp [mapLookup]) |>.1 (GoVal.str "1") (by simp [mapLookup])
  have h3 := (handleData_routing (Client.mk [] [("run", 3)]) []).2
      (by intro s; simp [mapLookup]) |>.2 (by simp [mapLookup])
  refine ⟨?_, h2, h3⟩
  rcases h1 with ⟨hroute, hcase⟩
  rcases hcase with ⟨h, hh, heq⟩ | ⟨hnone, _⟩
  · rw [hroute, heq]
    have : h = 3 := by
      have : regLookup (Client.mk [] [("run", 3)]).handlers "run" = some 3 := by decide
      rw [this] at hh
      exact (Option.some.injEq _ _ ▸ hh).symm
    rw [this]
  · exact absurd hnone (by decide)

/-- Decode a decimal digit string back to a number; left inverse of the
rendering used by `Nat.repr`. -/
def decodeDecimal (cs : List Char) : Nat :=
  cs.foldl (fun acc c => acc * 10 + (c.toNat - 48)) 0

theorem digitChar_toNat_sub : ∀ d : Nat, d < 10 → (Nat.digitChar d).toNat - 48 = d := by
  decide

theorem toDigitsCore_append_eq (b f n : Nat) (ds : List Char) :
    Nat.toDigitsCore b f n ds = Nat.toDigitsCore b f n [] ++ ds := by
  induction f generalizing n ds with
  | zero => rfl
  | succ f ih =>
    simp only [Nat.toDigitsCore]
    by_cases h : n / b = 0
    · simp [h]
    · simp only [h, if_false]
      rw [ih (n / b) (Nat.digitChar (n % b) :: ds), ih (n / b) [Nat.digitChar (n % b)]]
      simp

theorem decodeDecimal_append_one (cs : List Char) (c : Char) :
    decodeDecimal (cs ++ [c]) = decodeDecimal cs * 10 + (c.toNat - 48) := by
  simp [decodeDecimal, List.foldl_append]

theorem decodeDecimal_toDigitsCore (f n : Nat) (h : n < f) :
    decodeDecimal (Nat.toDigitsCore 10 f n []) = n := by
  induction f generalizing n with
  | zero => omega
  | succ f ih =>
    simp only [Nat.toDigitsCore]
    by_cases h0 : n / 10 = 0
    · simp only [h0, if_true]
      have hn : n < 10 := by omega
      have hd : decodeDecimal [Nat.digitChar (n % 10)] = (Nat.digitChar (n % 10)).toNat - 48 := by
        simp [decodeDecimal]
      rw [hd, digitChar_toNat_sub (n % 10) (Nat.mod_lt n (by norm_num)), Nat.mod_eq_of_lt hn]
    · simp only [h0, if_false]
      rw [toDigitsCore_append_eq 10 f (n / 10) [Nat.digitChar (n % 10)],
        decodeDecimal_append_one]
      have hless : n / 10 < f := by omega
      rw [ih (n / 10) hless, digitChar_toNat_sub (n % 10) (Nat.mod_lt n (by norm_num))]
      omega

theorem natRepr_injective (a b : Nat) (h : Nat.repr a = Nat.repr b) : a = b := by
  have hdata : Nat.toDigits 10 a = Nat.toDigits 10 b := congrArg String.data h
  have ha := decodeDecimal_toDigitsCore (a + 1) a (Nat.lt_succ_self a)
  have hb := decodeDecimal_toDigitsCore (b + 1) b (Nat.lt_succ_self b)
  rw [← ha, ← hb]
  unfold Nat.toDigits at hdata
  rw [hdata]

/-- Embedding of `generateID`: the decimal rendering by
`fmt.Sprintf` with verb `%d` of one draw of `rand.Int63()`.  The draw is
an arbitrary natural, reduced mod `2 ^ 63` to reflect the 63-bit range of
`Int63`. -/
def generateID (r : Nat) : String := Nat.repr (r % 2 ^ 63)

/-- Mutable state touched by `SendRequest`: the shared client registries
and the allocator for fresh response channels. -/
structure SendState where
  client : Client
  nextCh : Nat

/-- Result of one `SendRequest` call: the new state, the channel returned
to the caller, and the stamped payload written to the wire. -/
structure SendOut where
  state : SendState
  ch : Nat
  wire : GoObj

/-- Embedding of `SendRequest`: stamps the payload map with the protocol
tag and a freshly generated id (`r` is the `rand.Int63` draw of this
call), allocates a buffered response channel, registers it in
`rpcCallbacks` under the id, and emits the stamped payload. -/
def SendRequest (st : SendState) (r : Nat) (data : GoObj) : SendOut :=
  let id := generateID r
  { state :=
      { client :=
          { st.client with
            rpcCallbacks := regInsert st.client.rpcCallbacks id st.nextCh }
        nextCh := st.nextCh + 1 }
    ch := st.nextCh
    wire := mapInsert (mapInsert data "jsonrpc" (GoVal.str "2.0")) "id" (GoVal.str id) }

/-- C2 counterexample: `generateID` renders a draw of `rand.Int63()`, and
random draws can repeat.  In the execution whose two draws are both 5, two
distinct `SendRequest` invocations generate the same id "5", and the
second registration replaces the first `rpcCallbacks` entry: after both
calls the registry holds only the second channel (1) and the first waiter
(channel 0) has been dropped.  So it is not true that every pair of
distinct `SendRequest` invocations gets distinct ids, nor that a new
registration can never overwrite an existing entry. -/
theorem sendRequest_collision_cex :
    generateID 5 = generateID 5 ∧
    (SendRequest ⟨⟨[], []⟩, 0⟩ 5 []).state.client.rpcCallbacks = [("5", 0)] ∧
    (SendRequest (SendRequest ⟨⟨[], []⟩, 0⟩ 5 []).state 5 []).state.client.rpcCallbacks
      = [("5", 1)] := by
  exact ⟨rfl, rfl, rfl⟩

/-- C2 amended: ids generated from distinct `rand.Int63` draws are
distinct (the decimal rendering is injective on the 63-bit range), and
registering under an id not equal to an existing key leaves every other
registry entry unchanged; hence two `SendRequest` invocations whose draws
differ register two distinct pending calls that both remain present.
Only a repeated random draw (probability negligible for the process
lifetime, per the spec) can overwrite an entry. -/
theorem sendRequest_distinct_draws_distinct_ids (st : SendState) (r1 r2 : Nat)
    (d1 d2 : GoObj) (hne : r1 % 2 ^ 63 ≠ r2 % 2 ^ 63) :
    generateID r1 ≠ generateID r2 ∧
    (∀ (s : SendState) (r : Nat) (d : GoObj) (k : String), k ≠ generateID r →
      regLookup (SendRequest s r d).state.client.rpcCallbacks k
        = regLookup s.client.rpcCallbacks k) ∧
    regLookup (SendRequest (SendRequest st r1 d1).state r2 d2).state.client.rpcCallbacks
      (generateID r1) = some st.nextCh ∧
    regLookup (SendRequest (SendRequest st r1 d1).state r2 d2).state.client.rpcCallbacks
      (generateID r2) = some (st.nextCh + 1) := by
  have hid : generateID r1 ≠ generateID r2 := by
    intro hc
    exact hne (natRepr_injective _ _ hc)
  have hpres : ∀ (s : SendState) (r : Nat) (d : GoObj) (k : String), k ≠ generateID r →
      regLookup (SendRequest s r d).state.client.rpcCallbacks k
        = regLookup s.client.rpcCallbacks k := by
    intro s r d k hk
    exact regLookup_regInsert_ne _ _ _ _ hk
  refine ⟨hid, hpres, ?_, ?_⟩
  · rw [hpres _ r2 d2 (generateID r1) hid]
    exact regLookup_regInsert_self _ _ _
  · exact regLookup_regInsert_self _ _ _

/-- C2 witness: the amended statement applied at draws 5 and 6 from the
empty state: the ids "5" and "6" differ and both pending calls are
present, on channels 0 and 1. -/
theorem sendRequest_distinct_draws_witness :
    generateID 5 ≠ generateID 6 ∧
    regLookup (SendRequest (SendRequest ⟨⟨[], []⟩, 0⟩ 5 []).state 6 []).state.client.rpcCallbacks
      (generateID 5) = some 0 ∧
    regLookup (SendRequest (SendRequest ⟨⟨[], []⟩, 0⟩ 5 []).state 6 []).state.client.rpcCallbacks
      (generateID 6) = some 1 := by
  have h := sendRequest_distinct_draws_distinct_ids ⟨⟨[], []⟩, 0⟩ 5 6 [] [] (by decide)
  exact ⟨h.1, h.2.2.1, h.2.2.2⟩

/-- Result of `os.Stat`: size and directory flag. -/
structure FileStat where
  size : Int
  isDir : Bool

/-- Response of the bulk-transfer PUT: HTTP status and response body (read
by `httpPutRequest` for its error message). -/
structure PutResp where
  status : Nat
  body : String

/-- Response of the bulk-transfer GET: HTTP status, advertised content
length (`resp.ContentLength`) and body bytes. -/
structure GetResp where
  status : Nat
  contentLength : Int
  body : List Nat

/-- External collaborators of one transfer operation, as the orchestrator
observes them: outcomes of the correlated control calls (`GraphQL`), of
the direct HTTP PUT/GET, of the filesystem and stream reads, and the UUID
the random source would produce.  `Except.error e` is a Go error with
message `e`. -/
structure TransferEnv where
  statResult : Except String FileStat
  readFileResult : Except String (List Nat)
  readAllResult : Except String (List Nat)
  freshUUID : String
  requestURLResult : Except String GoObj
  putResult : Except String PutResp
  confirmResult : Except String GoObj
  downloadURLResult : Except String GoObj
  getResult : Except String GetResp
  bodyReadResult : Except String Unit
  deleteResult : Except String GoObj

/-- Network and side-effect events of the transfer orchestrator, in
program order: correlated control calls, direct bulk-transfer requests,
log notifications and progress callbacks. -/
inductive TEv where
  | requestUploadURL (file : GoObj)
  | confirmUpload (url : String)
  | requestDownloadURL (euuid : String)
  | deleteFileCall (uuid : String)
  | deleteFolderCall (uuid : String)
  | httpPut (url : String) (contentLength : Nat) (contentType : String)
  | httpGet (url : String)
  | logEv (msg : String)
  | progress (cur total : Int)

/-- Outcome of a Go expression that can panic. -/
inductive GoStep (α : Type) where
  | ok (a : α)
  | panicked

/-- The source idiom `result["data"].(map[string]interface\x7b\x7d)[field]`:
the inner type assertion is in single-value form, so it panics whenever
the `data` entry is absent, null, or not an object; only then is the
field read (nil when absent). -/
def dataField (result : GoObj) (field : String) : GoStep GoVal :=
  match mapLookup result "data" with
  | some (GoVal.obj m) => GoStep.ok (goIndex m field)
  | _ => GoStep.panicked

/-- Embedding of `getStringFromData`: the string value of `key` when it is
a non-empty string, the default otherwise. -/
def getStringFromData (data : GoObj) (key defaultValue : String) : String :=
  match mapLookup data key with
  | some (GoVal.str v) => if v = "" then defaultValue else v
  | _ => defaultValue

/-- Suffix scan of `filepath.Ext` over the reversed character list:
returns the extension from the final dot, empty when a path separator is
met first. -/
def filepathExtAux : List Char → List Char → String
  | [], _ => ""
  | c :: rest, acc =>
    if c = '/' then ""
    else if c = '.' then String.mk ('.' :: acc)
    else filepathExtAux rest (c :: acc)

/-- Embedding of `filepath.Ext` for slash-separated paths. -/
def filepathExt (p : String) : String :=
  filepathExtAux p.data.reverse []

/-- Drop path separators from the front of a reversed character list
(trailing separators of the path). -/
def dropTrailingSlashes : List Char → List Char
  | [] => []
  | c :: rest => if c = '/' then dropTrailingSlashes rest else c :: rest

/-- Take the reversed final path element (characters up to the first
separator of a reversed character list). -/
def takeUntilSlash : List Char → List Char
  | [] => []
  | c :: rest => if c = '/' then [] else c :: takeUntilSlash rest

/-- Embedding of `filepath.Base` for slash-separated paths. -/
def filepathBase (p : String) : String :=
  if p = "" then "."
  else
    match takeUntilSlash (dropTrailingSlashes p.data.reverse) with
    | [] => "/"
    | baseRev => String.mk baseRev.reverse

/-- Embedding of `detectMimeType`: `mime.TypeByExtension` is the external
table `mimeTable` (empty string when the extension is unknown), with the
fallback of the source. -/
def detectMimeType (mimeTable : String → String) (filePath : String) : String :=
  if mimeTable (filepathExt filePath) = "" then "application/octet-stream"
  else mimeTable (filepathExt filePath)

/-- Embedding of `httpPutRequest` given the observed outcome of the HTTP
round trip: a transport error is returned as is; a response with any
status except 200 becomes the error `HTTP status: body`; status 200 is
the only success. -/
def httpPutRequest (putResult : Except String PutResp) : Except String Unit :=
  match putResult with
  | Except.error e => Except.error e
  | Except.ok resp =>
    if resp.status = 200 then Except.ok ()
    else Except.error ("HTTP " ++ Nat.repr resp.status ++ ": " ++ resp.body)

/-- The `file` argument of the request-upload-URL mutation: euuid, name,
content type and size, plus the folder entry of `fileData` when it is an
object. -/
def fileVariables (euuid name contentType : String) (size : Int) (fileData : GoObj) : GoObj :=
  match mapLookup fileData "folder" with
  | some (GoVal.obj folder) =>
    mapInsert [("euuid", GoVal.str euuid), ("name", GoVal.str name),
      ("content_type", GoVal.str contentType), ("size", GoVal.int64 size)]
      "folder" (GoVal.obj folder)
  | _ =>
    [("euuid", GoVal.str euuid), ("name", GoVal.str name),
     ("content_type", GoVal.str contentType), ("size", GoVal.int64 size)]

/-- Whether `fileData` carries a `ProgressFn` under "progressFn". -/
def hasProgressFn (fileData : GoObj) : Bool :=
  match mapLookup fileData "progressFn" with
  | some (GoVal.fn _) => true
  | _ => false

/-- Outcome of an upload entry point: nil error, a `FileUploadError` with
its message, or a runtime panic. -/
inductive UpOut where
  | success
  | uploadError (msg : String)
  | panicked

/-- Steps 2 and 3 shared verbatim by the three upload entry points once a
URL string has been extracted: PUT the payload, then confirm by URL; the
error message prefixes are those of the source. -/
def uploadSteps23 (env : TransferEnv) (uploadURL contentType : String)
    (content : List Nat) (size : Int) (progress : Bool) (betweenLogs : List TEv) :
    UpOut × List TEv :=
  let ev1 := (if progress then [TEv.progress 0 size] else [])
    ++ [TEv.httpPut uploadURL content.length contentType]
  match httpPutRequest env.putResult with
  | Except.error e => (UpOut.uploadError ("S3 upload failed: " ++ e), ev1)
  | Except.ok _ =>
    let ev2 := ev1 ++ (if progress then [TEv.progress size size] else [])
      ++ betweenLogs ++ [TEv.confirmUpload uploadURL]
    match env.confirmResult with
    | Except.error e => (UpOut.uploadError ("Upload confirmation failed: " ++ e), ev2)
    | Except.ok confirmResult =>
      match dataField confirmResult "confirmFileUpload" with
      | GoStep.panicked => (UpOut.panicked, ev2)
      | GoStep.ok (GoVal.bool true) => (UpOut.success, ev2)
      | GoStep.ok _ => (UpOut.uploadError "Upload confirmation failed", ev2)

/-- Embedding of `Upload`: local-file upload.  The filesystem, MIME table
and control/bulk channels are explicit inputs; the returned event list is
the ordered sequence of interactions. -/
def Upload (env : TransferEnv) (mimeTable : String → String) (filePath : String)
    (fileData0 : Option GoObj) : UpOut × List TEv :=
  let fileData := fileData0.getD []
  match env.statResult with
  | Except.error _ => (UpOut.uploadError ("File not found: " ++ filePath), [])
  | Except.ok info =>
    if info.isDir then
      (UpOut.uploadError ("Path is a directory, not a file: " ++ filePath), [])
    else
      let size := info.size
      let name := getStringFromData fileData "name" (filepathBase filePath)
      let contentType := getStringFromData fileData "content_type" (detectMimeType mimeTable filePath)
      let euuid := getStringFromData fileData "euuid" env.freshUUID
      let ev0 := [TEv.logEv ("Starting upload: " ++ name),
        TEv.requestUploadURL (fileVariables euuid name contentType size fileData)]
      match env.requestURLResult with
      | Except.error e =>
        (UpOut.uploadError ("Upload failed: " ++ e), ev0 ++ [TEv.logEv "Upload failed"])
      | Except.ok result =>
        match dataField result "requestUploadURL" with
        | GoStep.panicked => (UpOut.panicked, ev0)
        | GoStep.ok (GoVal.str uploadURL) =>
          let ev1 := ev0 ++ [TEv.logEv "Upload URL received"]
          match env.readFileResult with
          | Except.error e =>
            (UpOut.uploadError ("Failed to read file: " ++ e), ev1)
          | Except.ok fileBytes =>
            let s23 := uploadSteps23 env uploadURL contentType fileBytes size
              (hasProgressFn fileData) [TEv.logEv "File uploaded to S3 successfully"]
            match s23.1 with
            | UpOut.success =>
              (UpOut.success, ev1 ++ s23.2
                ++ [TEv.logEv "Upload confirmed", TEv.logEv ("Upload completed: " ++ name)])
            | out => (out, ev1 ++ s23.2)
        | GoStep.ok _ =>
          (UpOut.uploadError "Failed to get upload URL from response", ev0)

/-- Embedding of `UploadStream`: externally supplied stream with declared
size.  The stream is fully read first; a mismatch between the declared
size and the bytes read fails before any control call. -/
def UploadStream (env : TransferEnv) (fileData0 : Option GoObj) : UpOut × List TEv :=
  match fileData0 with
  | none => (UpOut.uploadError "fileData is required", [])
  | some fileData =>
    match mapLookup fileData "name" with
    | some (GoVal.str name) =>
      if name = "" then (UpOut.uploadError "name is required for stream upload", [])
      else
        match
          (match mapLookup fileData "size" with
           | some (GoVal.int64 s) => some s
           | some (GoVal.int s) => some s
           | _ => none) with
        | none => (UpOut.uploadError "size is required for stream upload", [])
        | some size =>
          let euuid := getStringFromData fileData "euuid" env.freshUUID
          let contentType := getStringFromData fileData "content_type" "application/octet-stream"
          let ev0 := [TEv.logEv ("Starting stream upload: " ++ name)]
          match env.readAllResult with
          | Except.error e =>
            (UpOut.uploadError ("Failed to read from stream: " ++ e), ev0)
          | Except.ok content =>
            if (content.length : Int) ≠ size then
              (UpOut.uploadError ("Content size mismatch: expected " ++ size.repr
                ++ ", got " ++ Nat.repr content.length), ev0)
            else
              let ev1 := ev0
                ++ [TEv.requestUploadURL (fileVariables euuid name contentType size fileData)]
              match env.requestURLResult with
              | Except.error e => (UpOut.uploadError ("Upload failed: " ++ e), ev1)
              | Except.ok result =>
                match dataField result "requestUploadURL" with
                | GoStep.panicked => (UpOut.panicked, ev1)
                | GoStep.ok (GoVal.str uploadURL) =>
                  let s23 := uploadSteps23 env uploadURL contentType content size
                    (hasProgressFn fileData) []
                  match s23.1 with
                  | UpOut.success =>
                    (UpOut.success, ev1 ++ s23.2
                      ++ [TEv.logEv ("Stream upload completed: " ++ name)])
                  | out => (out, ev1 ++ s23.2)
                | GoStep.ok _ =>
                  (UpOut.uploadError "Failed to get upload URL from response", ev1)
    | _ => (UpOut.uploadError "name is required for stream upload", [])

/-- Embedding of `UploadContent`: in-memory content upload. -/
def UploadContent (env : TransferEnv) (content : List Nat) (fileData0 : Option GoObj) :
    UpOut × List TEv :=
  match fileData0 with
  | none => (UpOut.uploadError "fileData is required", [])
  | some fileData =>
    match mapLookup fileData "name" with
    | some (GoVal.str name) =>
      if name = "" then (UpOut.uploadError "name is required for content upload", [])
      else
        let size : Int := content.length
        let euuid := getStringFromData fileData "euuid" env.freshUUID
        let contentType := getStringFromData fileData "content_type" "text/plain"
        let ev0 := [TEv.logEv ("Starting content upload: " ++ name),
          TEv.requestUploadURL (fileVariables euuid name contentType size fileData)]
        match env.requestURLResult with
        | Except.error e => (UpOut.uploadError ("Content upload failed: " ++ e), ev0)
        | Except.ok result =>
          match dataField result "requestUploadURL" with
          | GoStep.panicked => (UpOut.panicked, ev0)
          | GoStep.ok (GoVal.str uploadURL) =>
            let s23 := uploadSteps23 env uploadURL contentType content size
              (hasProgressFn fileData) []
            match s23.1 with
            | UpOut.success =>
              (UpOut.success, ev0 ++ s23.2
                ++ [TEv.logEv ("Content upload completed: " ++ name)])
            | out => (out, ev0 ++ s23.2)
          | GoStep.ok _ =>
            (UpOut.uploadError "Failed to get upload URL from response", ev0)
    | _ => (UpOut.uploadError "name is required for content upload", [])

/-- The `DownloadStreamResult` of the source: the response body stream and
the advertised content length. -/
structure DownloadStreamResult where
  body : List Nat
  contentLength : Int

/-- Outcome of `DownloadStream`: a stream handle, a `FileDownloadError`
with its message, or a runtime panic. -/
inductive DlOut where
  | ok (res : DownloadStreamResult)
  | dlError (msg : String)
  | panicked

/-- Embedding of `DownloadStream`: request a download URL over the control
channel, then a direct GET; status 200 yields the body stream with the
advertised content length, any other status yields an error naming the
status. -/
def DownloadStream (env : TransferEnv) (fileUuid : String) : DlOut × List TEv :=
  let ev0 := [TEv.logEv ("Starting stream download: " ++ fileUuid),
    TEv.requestDownloadURL fileUuid]
  match env.downloadURLResult with
  | Except.error e =>
    (DlOut.dlError ("Download failed: " ++ e), ev0 ++ [TEv.logEv "Download failed"])
  | Except.ok result =>
    match dataField result "requestDownloadURL" with
    | GoStep.panicked => (DlOut.panicked, ev0)
    | GoStep.ok (GoVal.str downloadURL) =>
      let ev1 := ev0 ++ [TEv.logEv "Download URL received", TEv.httpGet downloadURL]
      match env.getResult with
      | Except.error e => (DlOut.dlError ("Download failed: " ++ e), ev1)
      | Except.ok resp =>
        if resp.status = 200 then
          (DlOut.ok { body := resp.body, contentLength := resp.contentLength }, ev1)
        else
          (DlOut.dlError ("Download failed with status: " ++ Nat.repr resp.status), ev1)
    | GoStep.ok _ =>
      (DlOut.dlError "Failed to get download URL from response", ev0)

/-- Outcome of `Download`: the buffered content, a `FileDownloadError`
with its message, or a runtime panic. -/
inductive DownOut where
  | ok (content : List Nat)
  | dlError (msg : String)
  | panicked

/-- Embedding of `Download`: `DownloadStream` followed by `io.ReadAll` of
the body (whose possible failure is `env.bodyReadResult`). -/
def Download (env : TransferEnv) (fileUuid : String) : DownOut × List TEv :=
  match DownloadStream env fileUuid with
  | (DlOut.panicked, evs) => (DownOut.panicked, evs)
  | (DlOut.dlError m, evs) => (DownOut.dlError m, evs)
  | (DlOut.ok res, evs) =>
    match env.bodyReadResult with
    | Except.error e =>
      (DownOut.dlError ("Failed to read download content: " ++ e), evs)
    | Except.ok _ =>
      (DownOut.ok res.body, evs ++ [TEv.logEv ("Download completed: " ++ fileUuid)])

/-- Outcome of a delete operation: the returned boolean or a runtime
panic. -/
inductive DelOut where
  | ret (b : Bool)
  | panicked

/-- Embedding of `DeleteFile`: a single correlated control call; an error
or a non-boolean result field yields `false` after logging; the result
lookup panics when the reply carries no data object. -/
def DeleteFile (env : TransferEnv) (fileUuid : String) : DelOut × List TEv :=
  let ev0 := [TEv.deleteFileCall fileUuid]
  match env.deleteResult with
  | Except.error _ => (DelOut.ret false, ev0 ++ [TEv.logEv "Failed to delete file"])
  | Except.ok result =>
    match dataField result "deleteFile" with
    | GoStep.panicked => (DelOut.panicked, ev0)
    | GoStep.ok (GoVal.bool b) =>
      (DelOut.ret b, ev0 ++ [TEv.logEv (if b then "File deleted: " ++ fileUuid
        else "File deletion failed: " ++ fileUuid)])
    | GoStep.ok _ =>
      (DelOut.ret false, ev0 ++ [TEv.logEv "Unexpected response format for file deletion"])

/-- Embedding of `DeleteFolder`: same shape as `DeleteFile` over the
`deleteFolder` mutation. -/
def DeleteFolder (env : TransferEnv) (folderUuid : String) : DelOut × List TEv :=
  let ev0 := [TEv.deleteFolderCall folderUuid]
  match env.deleteResult with
  | Except.error _ => (DelOut.ret false, ev0 ++ [TEv.logEv "Failed to delete folder"])
  | Except.ok result =>
    match dataField result "deleteFolder" with
    | GoStep.panicked => (DelOut.panicked, ev0)
    | GoStep.ok (GoVal.bool b) =>
      (DelOut.ret b, ev0 ++ [TEv.logEv (if b then "Folder deleted: " ++ folderUuid
        else "Folder deletion failed: " ++ folderUuid)])
    | GoStep.ok _ =>
      (DelOut.ret false, ev0 ++ [TEv.logEv "Unexpected response format for folder deletion"])

/-- Whether a trace contains a request-upload-URL control call. -/
def hasRequestURL (evs : List TEv) : Bool :=
  evs.any fun e => match e with
    | TEv.requestUploadURL _ => true
    | _ => false

/-- Whether a trace contains a bulk-transfer PUT. -/
def hasPut (evs : List TEv) : Bool :=
  evs.any fun e => match e with
    | TEv.httpPut _ _ _ => true
    | _ => false

/-- Whether a trace contains a confirm-upload control call. -/
def hasConfirm (evs : List TEv) : Bool :=
  evs.any fun e => match e with
    | TEv.confirmUpload _ => true
    | _ => false

/-- Whether a trace contains a log notification. -/
def hasLog (evs : List TEv) : Bool :=
  evs.any fun e => match e with
    | TEv.logEv _ => true
    | _ => false

/-- Whether an upload outcome is a `FileUploadError`. -/
def isUploadError : UpOut → Bool
  | UpOut.uploadError _ => true
  | _ => false

/-- Content types carried by the PUT events of a trace. -/
def putContentTypes (evs : List TEv) : List String :=
  evs.filterMap fun e => match e with
    | TEv.httpPut _ _ ct => some ct
    | _ => none

/-- Content types carried by the request-upload-URL events of a trace
(the `content_type` entry of the `file` argument). -/
def requestedContentTypes (evs : List TEv) : List (Option GoVal) :=
  evs.filterMap fun e => match e with
    | TEv.requestUploadURL file => some (mapLookup file "content_type")
    | _ => none

/-- C5: whenever the declared size in `fileData` disagrees with the number
of bytes actually read from the input stream, `UploadStream` returns a
`FileUploadError` (the size-mismatch message of the source) and the trace
contains no request-upload-URL call, no PUT and no confirm. -/
theorem uploadStream_size_mismatch_before_network (env : TransferEnv) (fileData : GoObj)
    (name : String) (size : Int) (content : List Nat)
    (hname : mapLookup fileData "name" = some (GoVal.str name))
    (hne : name ≠ "")
    (hsize : mapLookup fileData "size" = some (GoVal.int64 size) ∨
      mapLookup fileData "size" = some (GoVal.int size))
    (hread : env.readAllResult = Except.ok content)
    (hmismatch : (content.length : Int) ≠ size) :
    (UploadStream env (some fileData)).1
      = UpOut.uploadError ("Content size mismatch: expected " ++ size.repr
          ++ ", got " ++ Nat.repr content.length) ∧
    hasRequestURL (UploadStream env (some fileData)).2 = false ∧
    hasPut (UploadStream env (some fileData)).2 = false ∧
    hasConfirm (UploadStream env (some fileData)).2 = false := by
  rcases hsize with hsize | hsize <;>
    simp [UploadStream, hname, hne, hsize, hread, hmismatch, hasRequestURL, hasPut,
      hasConfirm]

/-- C5 witness: a stream declared as 3 bytes that actually yields 2 bytes
fails with the mismatch message before any network interaction. -/
theorem uploadStream_size_mismatch_witness :
    (UploadStream
      { statResult := Except.error "x", readFileResult := Except.error "x",
        readAllResult := Except.ok [1, 2], freshUUID := "u",
        requestURLResult := Except.error "x", putResult := Except.error "x",
        confirmResult := Except.error "x", downloadURLResult := Except.error "x",
        getResult := Except.error "x", bodyReadResult := Except.error "x",
        deleteResult := Except.error "x" }
      (some [("name", GoVal.str "f"), ("size", GoVal.int64 3)])).1
      = UpOut.uploadError ("Content size mismatch: expected " ++ (3 : Int).repr
          ++ ", got " ++ Nat.repr 2) ∧
    hasRequestURL (UploadStream
      { statResult := Except.error "x", readFileResult := Except.error "x",
        readAllResult := Except.ok [1, 2], freshUUID := "u",
        requestURLResult := Except.error "x", putResult := Except.error "x",
        confirmResult := Except.error "x", downloadURLResult := Except.error "x",
        getResult := Except.error "x", bodyReadResult := Except.error "x",
        deleteResult := Except.error "x" }
      (some [("name", GoVal.str "f"), ("size", GoVal.int64 3)])).2 = false := by
  have h := uploadStream_size_mismatch_before_network
    { statResult := Except.error "x", readFileResult := Except.error "x",
      readAllResult := Except.ok [1, 2], freshUUID := "u",
      requestURLResult := Except.error "x", putResult := Except.error "x",
      confirmResult := Except.error "x", downloadURLResult := Except.error "x",
      getResult := Except.error "x", bodyReadResult := Except.error "x",
      deleteResult := Except.error "x" }
    [("name", GoVal.str "f"), ("size", GoVal.int64 3)]
    "f" 3 [1, 2] (by simp [mapLookup]) (by simp) (Or.inl (by simp [mapLookup]))
    rfl (by decide)
  exact ⟨h.1, h.2.1⟩

theorem hasConfirm_append (a b : List TEv) :
    hasConfirm (a ++ b) = (hasConfirm a || hasConfirm b) := by
  simp [hasConfirm, List.any_append]

theorem hasPut_append (a b : List TEv) :
    hasPut (a ++ b) = (hasPut a || hasPut b) := by
  simp [hasPut, List.any_append]

theorem hasRequestURL_append (a b : List TEv) :
    hasRequestURL (a ++ b) = (hasRequestURL a || hasRequestURL b) := by
  simp [hasRequestURL, List.any_append]

theorem uploadSteps23_non200 (env : TransferEnv) (url ct : String) (content : List Nat)
    (size : Int) (progress : Bool) (logs : List TEv) (resp : PutResp)
    (hpr : env.putResult = Except.ok resp) (hst : resp.status ≠ 200) :
    (∃ e, (uploadSteps23 env url ct content size progress logs).1 = UpOut.uploadError e) ∧
    hasConfirm (uploadSteps23 env url ct content size progress logs).2 = false ∧
    hasPut (uploadSteps23 env url ct content size progress logs).2 = true := by
  cases progress <;>
    simp [uploadSteps23, httpPutRequest, hpr, hst, hasConfirm, hasPut]

/-- C3: HTTP 200 is the only status `httpPutRequest` treats as success,
and in each of the three upload entry points, whenever the PUT is issued
and its response status is not 200, the upload returns a
`FileUploadError` and the confirm-upload control call never appears in
the trace. -/
theorem put_non200_means_no_confirm :
    (∀ pr : PutResp, httpPutRequest (Except.ok pr) = Except.ok () ↔ pr.status = 200) ∧
    (∀ (env : TransferEnv) (mt : String → String) (fp : String) (fd : Option GoObj)
      (resp : PutResp), env.putResult = Except.ok resp → resp.status ≠ 200 →
      hasPut (Upload env mt fp fd).2 = true →
      isUploadError (Upload env mt fp fd).1 = true ∧
      hasConfirm (Upload env mt fp fd).2 = false) ∧
    (∀ (env : TransferEnv) (fd : Option GoObj) (resp : PutResp),
      env.putResult = Except.ok resp → resp.status ≠ 200 →
      hasPut (UploadStream env fd).2 = true →
      isUploadError (UploadStream env fd).1 = true ∧
      hasConfirm (UploadStream env fd).2 = false) ∧
    (∀ (env : TransferEnv) (content : List Nat) (fd : Option GoObj) (resp : PutResp),
      env.putResult = Except.ok resp → resp.status ≠ 200 →
      hasPut (UploadContent env content fd).2 = true →
      isUploadError (UploadContent env content fd).1 = true ∧
      hasConfirm (UploadContent env content fd).2 = false) := by
  refine ⟨?_, ?_, ?_, ?_⟩
  · intro pr
    by_cases h : pr.status = 200 <;> simp [httpPutRequest, h]
  · intro env mt fp fd resp hpr hst hput
    rcases hstat : env.statResult with e | info
    · simp [Upload, hstat, hasPut] at hput
    · cases hdir : info.isDir
      case true => simp [Upload, hstat, hdir, hasPut] at hput
      case false =>
        rcases hr : env.requestURLResult with e | result
        · simp [Upload, hstat, hdir, hr, hasPut] at hput
        · cases hdf : dataField result "requestUploadURL" with
          | panicked => simp [Upload, hstat, hdir, hr, hdf, hasPut] at hput
          | ok w =>
            cases w with
            | str url =>
              rcases hrf : env.readFileResult with e | fileBytes
              · simp [Upload, hstat, hdir, hr, hdf, hrf, hasPut] at hput
              · have h23 := uploadSteps23_non200 env url
                  (getStringFromData (fd.getD []) "content_type" (detectMimeType mt fp))
                  fileBytes info.size (hasProgressFn (fd.getD []))
                  [TEv.logEv "File uploaded to S3 successfully"] resp hpr hst
                obtain ⟨msg, hmsg⟩ := h23.1
                have h2 := h23.2.1
                simp [hasConfirm] at h2
                constructor
                · simp [Upload, hstat, hdir, hr, hdf, hrf, hmsg, isUploadError]
                · simp [Upload, hstat, hdir, hr, hdf, hrf, hmsg, hasConfirm]
                  exact h2
            | int64 n => simp [Upload, hstat, hdir, hr, hdf, hasPut] at hput
            | int n => simp [Upload, hstat, hdir, hr, hdf, hasPut] at hput
            | bool b => simp [Upload, hstat, hdir, hr, hdf, hasPut] at hput
            | null => simp [Upload, hstat, hdir, hr, hdf, hasPut] at hput
            | obj fs => simp [Upload, hstat, hdir, hr, hdf, hasPut] at hput
            | arr es => simp [Upload, hstat, hdir, hr, hdf, hasPut] at hput
            | fn t => simp [Upload, hstat, hdir, hr, hdf, hasPut] at hput
  · intro env fd resp hpr hst hput
    cases fd with
    | none => simp [UploadStream, hasPut] at hput
    | some fileData =>
      rcases hname : mapLookup fileData "name" with _ | v
      · simp [UploadStream, hname, hasPut] at hput
      · cases v with
        | str name =>
          by_cases hne : name = ""
          · simp [UploadStream, hname, hne, hasPut] at hput
          · rcases hs : (match mapLookup fileData "size" with
              | some (GoVal.int64 s) => some s
              | some (GoVal.int s) => some s
              | _ => none) with _ | size
            · simp [UploadStream, hname, hne, hs, hasPut] at hput
            · rcases hread : env.readAllResult with e | content
              · simp [UploadStream, hname, hne, hs, hread, hasPut] at hput
              · by_cases hmm : (content.length : Int) ≠ size
                · simp [UploadStream, hname, hne, hs, hread, hmm, hasPut] at hput
                · rcases hr : env.requestURLResult with e | result
                  · simp [UploadStream, hname, hne, hs, hread, hmm, hr, hasPut] at hput
                  · cases hdf : dataField result "requestUploadURL" with
                    | panicked =>
                      simp [UploadStream, hname, hne, hs, hread, hmm, hr, hdf, hasPut] at hput
                    | ok w =>
                      cases w with
                      | str url =>
                        have h23 := uploadSteps23_non200 env url
                          (getStringFromData fileData "content_type" "application/octet-stream")
                          content size (hasProgressFn fileData) [] resp hpr hst
                        obtain ⟨msg, hmsg⟩ := h23.1
                        have h2 := h23.2.1
                        simp [hasConfirm] at h2
                        constructor
                        · simp [UploadStream, hname, hne, hs, hread, hmm, hr, hdf, hmsg,
                            isUploadError]
                        · simp [UploadStream, hname, hne, hs, hread, hmm, hr, hdf, hmsg,
                            hasConfirm]
                          exact h2
                      | int64 n =>
                        simp [UploadStream, hname, hne, hs, hread, hmm, hr, hdf, hasPut] at hput
                      | int n =>
                        simp [UploadStream, hname, hne, hs, hread, hmm, hr, hdf, hasPut] at hput
                      | bool b =>
                        simp [UploadStream, hname, hne, hs, hread, hmm, hr, hdf, hasPut] at hput
                      | null =>
                        simp [UploadStream, hname, hne, hs, hread, hmm, hr, hdf, hasPut] at hput
                      | obj fs =>
                        simp [UploadStream, hname, hne, hs, hread, hmm, hr, hdf, hasPut] at hput
                      | arr es =>
                        simp [UploadStream, hname, hne, hs, hread, hmm, hr, hdf, hasPut] at hput
                      | fn t =>
                        simp [UploadStream, hname, hne, hs, hread, hmm, hr, hdf, hasPut] at hput
        | int64 n => simp [UploadStream, hname, hasPut] at hput
        | int n => simp [UploadStream, hname, hasPut] at hput
        | bool b => simp [UploadStream, hname, hasPut] at hput
        | null => simp [UploadStream, hname, hasPut] at hput
        | obj fs => simp [UploadStream, hname, hasPut] at hput
        | arr es => simp [UploadStream, hname, hasPut] at hput
        | fn t => simp [UploadStream, hname, hasPut] at hput
  · intro env content fd resp hpr hst hput
    cases fd with
    | none => simp [UploadContent, hasPut] at hput
    | some fileData =>
      rcases hname : mapLookup fileData "name" with _ | v
      · simp [UploadContent, hname, hasPut] at hput
      · cases v with
        | str name =>
          by_cases hne : name = ""
          · simp [UploadContent, hname, hne, hasPut] at hput
          · rcases hr : env.requestURLResult with e | result
            · simp [UploadContent, hname, hne, hr, hasPut] at hput
            · cases hdf : dataField result "requestUploadURL" with
              | panicked => simp [UploadContent, hname, hne, hr, hdf, hasPut] at hput
              | ok w =>
                cases w with
                | str url =>
                  have h23 := uploadSteps23_non200 env url
                    (getStringFromData fileData "content_type" "text/plain")
                    content (content.length : Int) (hasProgressFn fileData) [] resp hpr hst
                  obtain ⟨msg, hmsg⟩ := h23.1
                  have h2 := h23.2.1
                  simp [hasConfirm] at h2
                  constructor
                  · simp [UploadContent, hname, hne, hr, hdf, hmsg, isUploadError]
                  · simp [UploadContent, hname, hne, hr, hdf, hmsg, hasConfirm]
                    exact h2
                | int64 n => simp [UploadContent, hname, hne, hr, hdf, hasPut] at hput
                | int n => simp [UploadContent, hname, hne, hr, hdf, hasPut] at hput
                | bool b => simp [UploadContent, hname, hne, hr, hdf, hasPut] at hput
                | null => simp [UploadContent, hname, hne, hr, hdf, hasPut] at hput
                | obj fs => simp [UploadContent, hname, hne, hr, hdf, hasPut] at hput
                | arr es => simp [UploadContent, hname, hne, hr, hdf, hasPut] at hput
                | fn t => simp [UploadContent, hname, hne, hr, hdf, hasPut] at hput
        | int64 n => simp [UploadContent, hname, hasPut] at hput
        | int n => simp [UploadContent, hname, hasPut] at hput
        | bool b => simp [UploadContent, hname, hasPut] at hput
        | null => simp [UploadContent, hname, hasPut] at hput
        | obj fs => simp [UploadContent, hname, hasPut] at hput
        | arr es => simp [UploadContent, hname, hasPut] at hput
        | fn t => simp [UploadContent, hname, hasPut] at hput

/-- C3 witness: a concrete content upload whose PUT answers 500: the
upload reports a `FileUploadError` and no confirm call is in the trace. -/
theorem put_non200_witness :
    isUploadError (UploadContent
      { statResult := Except.error "x", readFileResult := Except.error "x",
        readAllResult := Except.error "x", freshUUID := "u",
        requestURLResult := Except.ok [("data", GoVal.obj [("requestUploadURL", GoVal.str "u1")])],
        putResult := Except.ok { status := 500, body := "denied" },
        confirmResult := Except.error "x", downloadURLResult := Except.error "x",
        getResult := Except.error "x", bodyReadResult := Except.error "x",
        deleteResult := Except.error "x" }
      [7] (some [("name", GoVal.str "f")])).1 = true ∧
    hasConfirm (UploadContent
      { statResult := Except.error "x", readFileResult := Except.error "x",
        readAllResult := Except.error "x", freshUUID := "u",
        requestURLResult := Except.ok [("data", GoVal.obj [("requestUploadURL", GoVal.str "u1")])],
        putResult := Except.ok { status := 500, body := "denied" },
        confirmResult := Except.error "x", downloadURLResult := Except.error "x",
        getResult := Except.error "x", bodyReadResult := Except.error "x",
        deleteResult := Except.error "x" }
      [7] (some [("name", GoVal.str "f")])).2 = false := by
  exact put_non200_means_no_confirm.2.2.2
    { statResult := Except.error "x", readFileResult := Except.error "x",
      readAllResult := Except.error "x", freshUUID := "u",
      requestURLResult := Except.ok [("data", GoVal.obj [("requestUploadURL", GoVal.str "u1")])],
      putResult := Except.ok { status := 500, body := "denied" },
      confirmResult := Except.error "x", downloadURLResult := Except.error "x",
      getResult := Except.error "x", bodyReadResult := Except.error "x",
      deleteResult := Except.error "x" }
    [7] (some [("name", GoVal.str "f")]) { status := 500, body := "denied" }
    rfl (by decide) (by rfl)

/-- C4 counterexample: the claim promises a `FileUploadError` whenever
step 1 fails, including a response lacking the expected URL field.  But a
control reply whose result carries no `data` object lacks the URL field
and makes `Upload` panic on the single-value type assertion
`result["data"].(map[string]interface\x7b\x7d)` instead of returning an
error: on this concrete input the outcome is a panic, not a
`FileUploadError` (though the PUT and confirm are indeed not reached). -/
theorem step1_missing_data_panics_cex :
    (Upload
      { statResult := Except.ok { size := 3, isDir := false },
        readFileResult := Except.error "x", readAllResult := Except.error "x",
        freshUUID := "u", requestURLResult := Except.ok [],
        putResult := Except.error "x", confirmResult := Except.error "x",
        downloadURLResult := Except.error "x", getResult := Except.error "x",
        bodyReadResult := Except.error "x", deleteResult := Except.error "x" }
      (fun _ => "") "f.txt" none).1 = UpOut.panicked ∧
    isUploadError (Upload
      { statResult := Except.ok { size := 3, isDir := false },
        readFileResult := Except.error "x", readAllResult := Except.error "x",
        freshUUID := "u", requestURLResult := Except.ok [],
        putResult := Except.error "x", confirmResult := Except.error "x",
        downloadURLResult := Except.error "x", getResult := Except.error "x",
        bodyReadResult := Except.error "x", deleteResult := Except.error "x" }
      (fun _ => "") "f.txt" none).1 = false := by
  exact ⟨rfl, rfl⟩

/-- C4 amended: for every upload entry point, when the request-upload-URL
control call returns an error, or returns a result whose `data` object
lacks a string URL field, the function returns a `FileUploadError`, and
the trace contains neither a PUT nor a confirm call; when the result
lacks a `data` object altogether, the function panics on the unchecked
type assertion (unless an earlier check already returned a
`FileUploadError`), and the trace again contains neither a PUT nor a
confirm call. -/
theorem step1_failure_aborts :
    (∀ (env : TransferEnv) (mt : String → String) (fp : String) (fd : Option GoObj)
      (e : String), env.requestURLResult = Except.error e →
      isUploadError (Upload env mt fp fd).1 = true ∧
      hasPut (Upload env mt fp fd).2 = false ∧
      hasConfirm (Upload env mt fp fd).2 = false) ∧
    (∀ (env : TransferEnv) (fd : Option GoObj) (e : String),
      env.requestURLResult = Except.error e →
      isUploadError (UploadStream env fd).1 = true ∧
      hasPut (UploadStream env fd).2 = false ∧
      hasConfirm (UploadStream env fd).2 = false) ∧
    (∀ (env : TransferEnv) (content : List Nat) (fd : Option GoObj) (e : String),
      env.requestURLResult = Except.error e →
      isUploadError (UploadContent env content fd).1 = true ∧
      hasPut (UploadContent env content fd).2 = false ∧
      hasConfirm (UploadContent env content fd).2 = false) ∧
    (∀ (env : TransferEnv) (mt : String → String) (fp : String) (fd : Option GoObj)
      (r : GoObj) (v : GoVal), env.requestURLResult = Except.ok r →
      dataField r "requestUploadURL" = GoStep.ok v → (∀ s, v ≠ GoVal.str s) →
      isUploadError (Upload env mt fp fd).1 = true ∧
      hasPut (Upload env mt fp fd).2 = false ∧
      hasConfirm (Upload env mt fp fd).2 = false) ∧
    (∀ (env : TransferEnv) (fd : Option GoObj) (r : GoObj) (v : GoVal),
      env.requestURLResult = Except.ok r →
      dataField r "requestUploadURL" = GoStep.ok v → (∀ s, v ≠ GoVal.str s) →
      isUploadError (UploadStream env fd).1 = true ∧
      hasPut (UploadStream env fd).2 = false ∧
      hasConfirm (UploadStream env fd).2 = false) ∧
    (∀ (env : TransferEnv) (content : List Nat) (fd : Option GoObj) (r : GoObj) (v : GoVal),
      env.requestURLResult = Except.ok r →
      dataField r "requestUploadURL" = GoStep.ok v → (∀ s, v ≠ GoVal.str s) →
      isUploadError (UploadContent env content fd).1 = true ∧
      hasPut (UploadContent env content fd).2 = false ∧
      hasConfirm (UploadContent env content fd).2 = false) ∧
    (∀ (env : TransferEnv) (mt : String → String) (fp : String) (fd : Option GoObj)
      (r : GoObj), env.requestURLResult = Except.ok r →
      dataField r "requestUploadURL" = GoStep.panicked →
      ((Upload env mt fp fd).1 = UpOut.panicked ∨
        isUploadError (Upload env mt fp fd).1 = true) ∧
      hasPut (Upload env mt fp fd).2 = false ∧
      hasConfirm (Upload env mt fp fd).2 = false) ∧
    (∀ (env : TransferEnv) (fd : Option GoObj) (r : GoObj),
      env.requestURLResult = Except.ok r →
      dataField r "requestUploadURL" = GoStep.panicked →
      ((UploadStream env fd).1 = UpOut.panicked ∨
        isUploadError (UploadStream env fd).1 = true) ∧
      hasPut (UploadStream env fd).2 = false ∧
      hasConfirm (UploadStream env fd).2 = false) ∧
    (∀ (env : TransferEnv) (content : List Nat) (fd : Option GoObj) (r : GoObj),
      env.requestURLResult = Except.ok r →
      dataField r "requestUploadURL" = GoStep.panicked →
      ((UploadContent env content fd).1 = UpOut.panicked ∨
        isUploadError (UploadContent env content fd).1 = true) ∧
      hasPut (UploadContent env content fd).2 = false ∧
      hasConfirm (UploadContent env content fd).2 = false) := by
  refine ⟨?_, ?_, ?_, ?_, ?_, ?_, ?_, ?_, ?_⟩
  · intro env mt fp fd e hreq
    simp only [Upload, hreq]
    repeat' split
    all_goals simp_all [isUploadError, hasPut, hasConfirm]
  · intro env fd e hreq
    simp only [UploadStream, hreq]
    repeat' split
    all_goals simp_all [isUploadError, hasPut, hasConfirm]
  · intro env content fd e hreq
    simp only [UploadContent, hreq]
    repeat' split
    all_goals simp_all [isUploadError, hasPut, hasConfirm]
  · intro env mt fp fd r v hr hdf hv
    simp only [Upload, hr, hdf]
    repeat' split
    all_goals simp_all [isUploadError, hasPut, hasConfirm]
  · intro env fd r v hr hdf hv
    simp only [UploadStream, hr, hdf]
    repeat' split
    all_goals simp_all [isUploadError, hasPut, hasConfirm]
  · intro env content fd r v hr hdf hv
    simp only [UploadContent, hr, hdf]
    repeat' split
    all_goals simp_all [isUploadError, hasPut, hasConfirm]
  · intro env mt fp fd r hr hdf
    simp only [Upload, hr, hdf]
    repeat' split
    all_goals simp_all [isUploadError, hasPut, hasConfirm]
  · intro env fd r hr hdf
    simp only [UploadStream, hr, hdf]
    repeat' split
    all_goals simp_all [isUploadError, hasPut, hasConfirm]
  · intro env content fd r hr hdf
    simp only [UploadContent, hr, hdf]
    repeat' split
    all_goals simp_all [isUploadError, hasPut, hasConfirm]

/-- C4 witness: a concrete content upload whose control channel answers
with an error: the `FileUploadError` is returned and neither the PUT nor
the confirm call appears in the trace. -/
theorem step1_failure_aborts_witness :
    isUploadError (UploadContent
      { statResult := Except.error "x", readFileResult := Except.error "x",
        readAllResult := Except.error "x", freshUUID := "u",
        requestURLResult := Except.error "boom", putResult := Except.error "x",
        confirmResult := Except.error "x", downloadURLResult := Except.error "x",
        getResult := Except.error "x", bodyReadResult := Except.error "x",
        deleteResult := Except.error "x" }
      [7] (some [("name", GoVal.str "f")])).1 = true ∧
    hasPut (UploadContent
      { statResult := Except.error "x", readFileResult := Except.error "x",
        readAllResult := Except.error "x", freshUUID := "u",
        requestURLResult := Except.error "boom", putResult := Except.error "x",
        confirmResult := Except.error "x", downloadURLResult := Except.error "x",
        getResult := Except.error "x", bodyReadResult := Except.error "x",
        deleteResult := Except.error "x" }
      [7] (some [("name", GoVal.str "f")])).2 = false := by
  have h := step1_failure_aborts.2.2.1
    { statResult := Except.error "x", readFileResult := Except.error "x",
      readAllResult := Except.error "x", freshUUID := "u",
      requestURLResult := Except.error "boom", putResult := Except.error "x",
      confirmResult := Except.error "x", downloadURLResult := Except.error "x",
      getResult := Except.error "x", bodyReadResult := Except.error "x",
      deleteResult := Except.error "x" }
    [7] (some [("name", GoVal.str "f")]) "boom" rfl
  exact ⟨h.1, h.2.1⟩

/-- C6: with a control channel yielding a download URL and a GET response
available: on status 200 with body B and content length L,
`DownloadStream` returns a stream handle carrying exactly L and B, and
`Download` (when reading the body succeeds) returns exactly B; on any
other status both return a `FileDownloadError` whose message contains the
status code. -/
theorem download_get_semantics (env : TransferEnv) (uuid : String) (r : GoObj)
    (u : String) (resp : GetResp)
    (hr : env.downloadURLResult = Except.ok r)
    (hdf : dataField r "requestDownloadURL" = GoStep.ok (GoVal.str u))
    (hget : env.getResult = Except.ok resp) :
    (resp.status = 200 →
      (DownloadStream env uuid).1
        = DlOut.ok { body := resp.body, contentLength := resp.contentLength } ∧
      (env.bodyReadResult = Except.ok () →
        (Download env uuid).1 = DownOut.ok resp.body)) ∧
    (resp.status ≠ 200 →
      (DownloadStream env uuid).1
        = DlOut.dlError ("Download failed with status: " ++ Nat.repr resp.status) ∧
      (Download env uuid).1
        = DownOut.dlError ("Download failed with status: " ++ Nat.repr resp.status) ∧
      ∃ pre, ("Download failed with status: " ++ Nat.repr resp.status)
        = pre ++ Nat.repr resp.status) := by
  constructor
  · intro h200
    constructor
    · simp [DownloadStream, hr, hdf, hget, h200]
    · intro hbody
      simp [Download, DownloadStream, hr, hdf, hget, h200, hbody]
  · intro hn200
    refine ⟨?_, ?_, ⟨"Download failed with status: ", rfl⟩⟩
    · simp [DownloadStream, hr, hdf, hget, hn200]
    · simp [Download, DownloadStream, hr, hdf, hget, hn200]

/-- C6 witness: a download of 7 bytes "abcdefg" with advertised length 7
and status 200 yields exactly that stream and content, while a second
concrete download whose GET answers 404 yields the error message naming
404 from both entry points. -/
theorem download_get_semantics_witness :
    (DownloadStream
      { statResult := Except.error "x", readFileResult := Except.error "x",
        readAllResult := Except.error "x", freshUUID := "u",
        requestURLResult := Except.error "x", putResult := Except.error "x",
        confirmResult := Except.error "x",
        downloadURLResult := Except.ok [("data", GoVal.obj [("requestDownloadURL", GoVal.str "u2")])],
        getResult := Except.ok (GetResp.mk 200 7 [97, 98, 99, 100, 101, 102, 103]),
        bodyReadResult := Except.ok (), deleteResult := Except.error "x" } "fid").1
      = DlOut.ok { body := [97, 98, 99, 100, 101, 102, 103], contentLength := 7 } ∧
    (Download
      { statResult := Except.error "x", readFileResult := Except.error "x",
        readAllResult := Except.error "x", freshUUID := "u",
        requestURLResult := Except.error "x", putResult := Except.error "x",
        confirmResult := Except.error "x",
        downloadURLResult := Except.ok [("data", GoVal.obj [("requestDownloadURL", GoVal.str "u2")])],
        getResult := Except.ok (GetResp.mk 200 7 [97, 98, 99, 100, 101, 102, 103]),
        bodyReadResult := Except.ok (), deleteResult := Except.error "x" } "fid").1
      = DownOut.ok [97, 98, 99, 100, 101, 102, 103] ∧
    (DownloadStream
      { statResult := Except.error "x", readFileResult := Except.error "x",
        readAllResult := Except.error "x", freshUUID := "u",
        requestURLResult := Except.error "x", putResult := Except.error "x",
        confirmResult := Except.error "x",
        downloadURLResult := Except.ok [("data", GoVal.obj [("requestDownloadURL", GoVal.str "u2")])],
        getResult := Except.ok (GetResp.mk 404 0 []),
        bodyReadResult := Except.ok (), deleteResult := Except.error "x" } "fid").1
      = DlOut.dlError ("Download failed with status: " ++ Nat.repr 404) := by
  have h1 := (download_get_semantics
    { statResult := Except.error "x", readFileResult := Except.error "x",
      readAllResult := Except.error "x", freshUUID := "u",
      requestURLResult := Except.error "x", putResult := Except.error "x",
      confirmResult := Except.error "x",
      downloadURLResult := Except.ok [("data", GoVal.obj [("requestDownloadURL", GoVal.str "u2")])],
      getResult := Except.ok (GetResp.mk 200 7 [97, 98, 99, 100, 101, 102, 103]),
      bodyReadResult := Except.ok (), deleteResult := Except.error "x" } "fid"
    [("data", GoVal.obj [("requestDownloadURL", GoVal.str "u2")])] "u2"
    (GetResp.mk 200 7 [97, 98, 99, 100, 101, 102, 103])
    rfl (by simp [dataField, mapLookup, goIndex]) rfl).1 rfl
  have h2 := (download_get_semantics
    { statResult := Except.error "x", readFileResult := Except.error "x",
      readAllResult := Except.error "x", freshUUID := "u",
      requestURLResult := Except.error "x", putResult := Except.error "x",
      confirmResult := Except.error "x",
      downloadURLResult := Except.ok [("data", GoVal.obj [("requestDownloadURL", GoVal.str "u2")])],
      getResult := Except.ok (GetResp.mk 404 0 []),
      bodyReadResult := Except.ok (), deleteResult := Except.error "x" } "fid"
    [("data", GoVal.obj [("requestDownloadURL", GoVal.str "u2")])] "u2"
    (GetResp.mk 404 0 [])
    rfl (by simp [dataField, mapLookup, goIndex]) rfl).2 (by decide)
  exact ⟨h1.1, h1.2 rfl, h2.1⟩

/-- C9 counterexample: the claim promises that `DeleteFile` returns false
(after logging) whenever the result field is not a boolean.  But when the
control reply result carries no `data` object at all, the single-value
type assertion `result["data"].(map[string]interface\x7b\x7d)` panics, so
the call neither returns false nor any boolean: on this concrete input
the outcome is a panic. -/
theorem deleteFile_missing_data_panics_cex :
    (DeleteFile
      { statResult := Except.error "x", readFileResult := Except.error "x",
        readAllResult := Except.error "x", freshUUID := "u",
        requestURLResult := Except.error "x", putResult := Except.error "x",
        confirmResult := Except.error "x", downloadURLResult := Except.error "x",
        getResult := Except.error "x", bodyReadResult := Except.error "x",
        deleteResult := Except.ok [] } "f1").1 = DelOut.panicked := by
  rfl

/-- C9 amended: `DeleteFile` and `DeleteFolder` never surface a Go error:
on a control-channel error they log and return false; when the reply
carries a `data` object whose `deleteFile` / `deleteFolder` field is a
boolean they return exactly that boolean; when the field within the
`data` object is not a boolean they log and return false; only a reply
with no `data` object at all makes them panic on the unchecked type
assertion. -/
theorem delete_boolean_semantics (env : TransferEnv) (uuid : String) :
    (∀ e, env.deleteResult = Except.error e →
      (DeleteFile env uuid).1 = DelOut.ret false ∧
      hasLog (DeleteFile env uuid).2 = true ∧
      (DeleteFolder env uuid).1 = DelOut.ret false ∧
      hasLog (DeleteFolder env uuid).2 = true) ∧
    (∀ r b, env.deleteResult = Except.ok r →
      dataField r "deleteFile" = GoStep.ok (GoVal.bool b) →
      (DeleteFile env uuid).1 = DelOut.ret b) ∧
    (∀ r v, env.deleteResult = Except.ok r →
      dataField r "deleteFile" = GoStep.ok v → (∀ b, v ≠ GoVal.bool b) →
      (DeleteFile env uuid).1 = DelOut.ret false ∧
      hasLog (DeleteFile env uuid).2 = true) ∧
    (∀ r, env.deleteResult = Except.ok r →
      dataField r "deleteFile" = GoStep.panicked →
      (DeleteFile env uuid).1 = DelOut.panicked) ∧
    (∀ r b, env.deleteResult = Except.ok r →
      dataField r "deleteFolder" = GoStep.ok (GoVal.bool b) →
      (DeleteFolder env uuid).1 = DelOut.ret b) ∧
    (∀ r v, env.deleteResult = Except.ok r →
      dataField r "deleteFolder" = GoStep.ok v → (∀ b, v ≠ GoVal.bool b) →
      (DeleteFolder env uuid).1 = DelOut.ret false ∧
      hasLog (DeleteFolder env uuid).2 = true) ∧
    (∀ r, env.deleteResult = Except.ok r →
      dataField r "deleteFolder" = GoStep.panicked →
      (DeleteFolder env uuid).1 = DelOut.panicked) := by
  refine ⟨?_, ?_, ?_, ?_, ?_, ?_, ?_⟩
  · intro e he
    simp [DeleteFile, DeleteFolder, he, hasLog]
  · intro r b hr hdf
    simp [DeleteFile, hr, hdf]
  · intro r v hr hdf hv
    simp only [DeleteFile, hr, hdf]
    all_goals simp_all [hasLog]
  · intro r hr hdf
    simp [DeleteFile, hr, hdf]
  · intro r b hr hdf
    simp [DeleteFolder, hr, hdf]
  · intro r v hr hdf hv
    simp only [DeleteFolder, hr, hdf]
    all_goals simp_all [hasLog]
  · intro r hr hdf
    simp [DeleteFolder, hr, hdf]

/-- C9 witness: concrete runs of the amended semantics: a control error
returns false with a log; a reply whose data object answers true returns
true; a reply whose data object carries a string instead of a boolean
returns false with a log. -/
theorem delete_boolean_semantics_witness :
    (DeleteFile
      { statResult := Except.error "x", readFileResult := Except.error "x",
        readAllResult := Except.error "x", freshUUID := "u",
        requestURLResult := Except.error "x", putResult := Except.error "x",
        confirmResult := Except.error "x", downloadURLResult := Except.error "x",
        getResult := Except.error "x", bodyReadResult := Except.error "x",
        deleteResult := Except.error "down" } "f1").1 = DelOut.ret false ∧
    (DeleteFile
      { statResult := Except.error "x", readFileResult := Except.error "x",
        readAllResult := Except.error "x", freshUUID := "u",
        requestURLResult := Except.error "x", putResult := Except.error "x",
        confirmResult := Except.error "x", downloadURLResult := Except.error "x",
        getResult := Except.error "x", bodyReadResult := Except.error "x",
        deleteResult := Except.ok [("data", GoVal.obj [("deleteFile", GoVal.bool true)])] }
      "f1").1 = DelOut.ret true ∧
    (DeleteFolder
      { statResult := Except.error "x", readFileResult := Except.error "x",
        readAllResult := Except.error "x", freshUUID := "u",
        requestURLResult := Except.error "x", putResult := Except.error "x",
        confirmResult := Except.error "x", downloadURLResult := Except.error "x",
        getResult := Except.error "x", bodyReadResult := Except.error "x",
        deleteResult := Except.ok [("data", GoVal.obj [("deleteFolder", GoVal.str "no")])] }
      "d1").1 = DelOut.ret false := by
  have h1 := ((delete_boolean_semantics
    { statResult := Except.error "x", readFileResult := Except.error "x",
      readAllResult := Except.error "x", freshUUID := "u",
      requestURLResult := Except.error "x", putResult := Except.error "x",
      confirmResult := Except.error "x", downloadURLResult := Except.error "x",
      getResult := Except.error "x", bodyReadResult := Except.error "x",
      deleteResult := Except.error "down" } "f1").1 "down" rfl).1
  have h2 := (delete_boolean_semantics
    { statResult := Except.error "x", readFileResult := Except.error "x",
      readAllResult := Except.error "x", freshUUID := "u",
      requestURLResult := Except.error "x", putResult := Except.error "x",
      confirmResult := Except.error "x", downloadURLResult := Except.error "x",
      getResult := Except.error "x", bodyReadResult := Except.error "x",
      deleteResult := Except.ok [("data", GoVal.obj [("deleteFile", GoVal.bool true)])] }
    "f1").2.1 [("data", GoVal.obj [("deleteFile", GoVal.bool true)])] true rfl
    (by simp [dataField, mapLookup, goIndex])
  have h3 := ((delete_boolean_semantics
    { statResult := Except.error "x", readFileResult := Except.error "x",
      readAllResult := Except.error "x", freshUUID := "u",
      requestURLResult := Except.error "x", putResult := Except.error "x",
      confirmResult := Except.error "x", downloadURLResult := Except.error "x",
      getResult := Except.error "x", bodyReadResult := Except.error "x",
      deleteResult := Except.ok [("data", GoVal.obj [("deleteFolder", GoVal.str "no")])] }
    "d1").2.2.2.2.2.1 [("data", GoVal.obj [("deleteFolder", GoVal.str "no")])]
    (GoVal.str "no") rfl (by simp [dataField, mapLookup, goIndex])
    (by intro b; simp)).1
  exact ⟨h1, h2, h3⟩

theorem getStringFromData_default (data : GoObj) (key d : String)
    (h : ∀ s, mapLookup data key = some (GoVal.str s) → s = "") :
    getStringFromData data key d = d := by
  unfold getStringFromData
  rcases hm : mapLookup data key with _ | v
  · rfl
  · cases v with
    | str s =>
      have hs := h s hm
      simp [hs]
    | int64 n => rfl
    | int n => rfl
    | bool b => rfl
    | null => rfl
    | obj fs => rfl
    | arr es => rfl
    | fn t => rfl

theorem fileVariables_content_type (e n ct : String) (s : Int) (fd : GoObj) :
    mapLookup (fileVariables e n ct s fd) "content_type" = some (GoVal.str ct) := by
  unfold fileVariables
  rcases hf : mapLookup fd "folder" with _ | v
  · simp [mapLookup]
  · cases v <;> simp [mapLookup, mapInsert, mapDelete]

set_option maxHeartbeats 2000000 in
/-- C10: when `fileData` has no non-empty string under "content_type",
the content type sent in the request-upload-URL control call and in
every PUT of the trace is the per-entry-point default: the MIME type
derived from the file extension for `Upload` (with the
application/octet-stream fallback when the extension is unknown to the
MIME table), application/octet-stream for `UploadStream`, and text/plain
for `UploadContent`. -/
theorem default_content_types :
    (∀ (env : TransferEnv) (mt : String → String) (fp : String) (fd : Option GoObj),
      (∀ s, mapLookup (fd.getD []) "content_type" = some (GoVal.str s) → s = "") →
      (∀ x ∈ requestedContentTypes (Upload env mt fp fd).2,
        x = some (GoVal.str (detectMimeType mt fp))) ∧
      (∀ ct ∈ putContentTypes (Upload env mt fp fd).2, ct = detectMimeType mt fp) ∧
      detectMimeType mt fp
        = (if mt (filepathExt fp) = "" then "application/octet-stream"
           else mt (filepathExt fp))) ∧
    (∀ (env : TransferEnv) (fd : Option GoObj),
      (∀ s, mapLookup (fd.getD []) "content_type" = some (GoVal.str s) → s = "") →
      (∀ x ∈ requestedContentTypes (UploadStream env fd).2,
        x = some (GoVal.str "application/octet-stream")) ∧
      (∀ ct ∈ putContentTypes (UploadStream env fd).2,
        ct = "application/octet-stream")) ∧
    (∀ (env : TransferEnv) (content : List Nat) (fd : Option GoObj),
      (∀ s, mapLookup (fd.getD []) "content_type" = some (GoVal.str s) → s = "") →
      (∀ x ∈ requestedContentTypes (UploadContent env content fd).2,
        x = some (GoVal.str "text/plain")) ∧
      (∀ ct ∈ putContentTypes (UploadContent env content fd).2, ct = "text/plain")) := by
  refine ⟨?_, ?_, ?_⟩
  · intro env mt fp fd hno
    have hct : getStringFromData (fd.getD []) "content_type" (detectMimeType mt fp)
        = detectMimeType mt fp := getStringFromData_default _ _ _ hno
    refine ⟨?_, ?_, rfl⟩ <;>
    · simp only [Upload, uploadSteps23, hct]
      repeat' split
      all_goals simp_all [requestedContentTypes, putContentTypes, fileVariables_content_type]
  · intro env fd hno
    cases fd with
    | none => simp [UploadStream, requestedContentTypes, putContentTypes]
    | some fileData =>
      simp only [Option.getD_some] at hno
      have hct : getStringFromData fileData "content_type" "application/octet-stream"
          = "application/octet-stream" := getStringFromData_default _ _ _ hno
      simp only [UploadStream, uploadSteps23, hct]
      repeat' split
      all_goals simp_all [requestedContentTypes, putContentTypes, fileVariables_content_type]
  · intro env content fd hno
    cases fd with
    | none => simp [UploadContent, requestedContentTypes, putContentTypes]
    | some fileData =>
      simp only [Option.getD_some] at hno
      have hct : getStringFromData fileData "content_type" "text/plain" = "text/plain" :=
        getStringFromData_default _ _ _ hno
      simp only [UploadContent, uploadSteps23, hct]
      repeat' split
      all_goals simp_all [requestedContentTypes, putContentTypes, fileVariables_content_type]

/-- C10 witness: a concrete content upload without a content_type entry
that reaches the PUT: every content type in its trace is text/plain, and
its PUT list is exactly one text/plain entry. -/
theorem default_content_types_witness :
    (∀ x ∈ requestedContentTypes (UploadContent
      { statResult := Except.error "x", readFileResult := Except.error "x",
        readAllResult := Except.error "x", freshUUID := "u",
        requestURLResult := Except.ok [("data", GoVal.obj [("requestUploadURL", GoVal.str "u1")])],
        putResult := Except.ok { status := 200, body := "" },
        confirmResult := Except.ok [("data", GoVal.obj [("confirmFileUpload", GoVal.bool true)])],
        downloadURLResult := Except.error "x", getResult := Except.error "x",
        bodyReadResult := Except.error "x", deleteResult := Except.error "x" }
      [7] (some [("name", GoVal.str "f")])).2, x = some (GoVal.str "text/plain")) ∧
    putContentTypes (UploadContent
      { statResult := Except.error "x", readFileResult := Except.error "x",
        readAllResult := Except.error "x", freshUUID := "u",
        requestURLResult := Except.ok [("data", GoVal.obj [("requestUploadURL", GoVal.str "u1")])],
        putResult := Except.ok { status := 200, body := "" },
        confirmResult := Except.ok [("data", GoVal.obj [("confirmFileUpload", GoVal.bool true)])],
        downloadURLResult := Except.error "x", getResult := Except.error "x",
        bodyReadResult := Except.error "x", deleteResult := Except.error "x" }
      [7] (some [("name", GoVal.str "f")])).2 = ["text/plain"] := by
  have h := default_content_types.2.2
    { statResult := Except.error "x", readFileResult := Except.error "x",
      readAllResult := Except.error "x", freshUUID := "u",
      requestURLResult := Except.ok [("data", GoVal.obj [("requestUploadURL", GoVal.str "u1")])],
      putResult := Except.ok { status := 200, body := "" },
      confirmResult := Except.ok [("data", GoVal.obj [("confirmFileUpload", GoVal.bool true)])],
      downloadURLResult := Except.error "x", getResult := Except.error "x",
      bodyReadResult := Except.error "x", deleteResult := Except.error "x" }
    [7] (some [("name", GoVal.str "f")])
    (by intro s hs; simp [mapLookup] at hs)
  exact ⟨h.1, rfl⟩
